import Mathlib

/-!
# BursaMind Risk & What-If Simulation Engine — verification

Shallow embedding of the traffic what-if scenario engine
(`app/services/traffic_whatif_service.py`), the density forecaster
(`app/services/traffic_model.py`), the what-if HTTP endpoint
(`app/api/v1/endpoints/traffic_risk.py`) and the request schema
(`app/schemas/traffic_risk.py`), together with proofs and refutations of
the specified properties.

Numeric conventions: Python floats are embedded as exact rationals (`ℚ`),
except where the source computes `hops ** 1.5`, which is irrational and is
embedded over `ℝ`.  Python `int(...)` truncation toward zero is `pyInt`.
Fallible Python code (raised exceptions) is embedded with `Except PyError`.
-/

namespace BursaMind

/-- Python exception outcomes arising in the embedded code paths.
`attributeError` is raised by reading a never-assigned attribute,
`valueError` by `ScenarioType(s)` on an unknown scenario string,
`typeError` by elementwise subtraction of non-numeric pandas columns,
and `notFound` stands for the endpoint's HTTP 404 `HTTPException`. -/
inductive PyError where
  | attributeError
  | valueError
  | typeError
  | notFound
  deriving DecidableEq, Repr

/-- A recommended time window as returned in `best_time_window`
(fields `start` and `end`; `end` is a Lean keyword, so the second field
is called `stop`). -/
structure Window where
  start : String
  stop : String
  deriving DecidableEq, Repr

/-- Python `f"{n:02d}"` two-digit zero padding. -/
def fmt2 (n : ℕ) : String :=
  if n < 10 then "0" ++ toString n else toString n

/-- Python `f"{h:02d}:00"` hour formatting used by `_find_best_time_window`. -/
def fmtHour (n : ℕ) : String := fmt2 n ++ ":00"

/-- Python `int(q)` on a float: truncation toward zero, on exact rationals. -/
def pyInt (q : ℚ) : ℤ := if 0 ≤ q then ⌊q⌋ else -⌊-q⌋

/-! ## Segment graph (`self.segment_neighbors : Dict[str, List[str]]`)

The adjacency dictionary is embedded as an association list; lookup
(`dict.get(key, [])`) takes the first matching key. -/

/-- The segment adjacency mapping. -/
abbrev Graph := List (String × List String)

/-- `self.segment_neighbors.get(s, [])`. -/
def Graph.get (g : Graph) (s : String) : List String :=
  match g.find? (fun p => p.1 == s) with
  | some p => p.2
  | none => []

/-- All strings occurring in some adjacency list of `g` (used only for
termination measures; not part of the source). -/
def Graph.univ (g : Graph) : List String := (g.map Prod.snd).flatten

/-- The largest adjacency-list length of `g` (used only for termination
measures; not part of the source). -/
def Graph.maxDeg (g : Graph) : ℕ := (g.map (fun p => p.2.length)).foldr max 0

theorem Graph.get_subset_univ (g : Graph) (s : String) :
    ∀ x ∈ g.get s, x ∈ g.univ := by
  intro x hx
  unfold Graph.get at hx
  cases hfind : g.find? (fun p => p.1 == s) with
  | none => rw [hfind] at hx; simp at hx
  | some p =>
    rw [hfind] at hx
    have hp : p ∈ g := List.mem_of_find?_eq_some hfind
    unfold Graph.univ
    exact List.mem_flatten.mpr ⟨p.2, List.mem_map.mpr ⟨p, hp, rfl⟩, hx⟩

theorem Graph.length_le_maxDeg (g : Graph) {p : String × List String}
    (hp : p ∈ g) : p.2.length ≤ g.maxDeg := by
  unfold Graph.maxDeg
  induction g with
  | nil => simp at hp
  | cons q qs ih =>
    simp only [List.map_cons, List.foldr_cons]
    rcases List.mem_cons.mp hp with h | h
    · subst h; exact le_max_left _ _
    · exact le_trans (ih h) (le_max_right _ _)

theorem Graph.get_length_le (g : Graph) (s : String) :
    (g.get s).length ≤ g.maxDeg := by
  unfold Graph.get
  cases hfind : g.find? (fun p => p.1 == s) with
  | none => simp
  | some p => exact Graph.length_le_maxDeg g (List.mem_of_find?_eq_some hfind)

/-! ## `_find_affected_segments` (BFS with a visited set and a hop bound)

The Python `affected` set is embedded as an insertion-ordered duplicate-free
list (elements are only added after an explicit membership test, exactly as
in the source); `list(affected)` at the end is that list. -/

/-- The inner `for neighbor in neighbors` loop of `_find_affected_segments`:
every neighbor not yet in `affected` is added to `affected` and appended to
the queue with hop count `hops1` (the source's `hops + 1`). -/
def addNeighbors (hops1 : ℕ) :
    List String → List String → List (String × ℕ) →
    List String × List (String × ℕ)
  | [], affected, pending => (affected, pending)
  | n :: ns, affected, pending =>
    if n ∈ affected then addNeighbors hops1 ns affected pending
    else addNeighbors hops1 ns (affected ++ [n]) (pending ++ [(n, hops1)])

/-- Weighted queue size: termination measure for the bounded BFS (each queue
entry at hop `h` weighs `(D+1)^(maxHops-h)`); not part of the source. -/
def queueWeight (D maxHops : ℕ) (queue : List (String × ℕ)) : ℕ :=
  (queue.map (fun e => (D + 1) ^ (maxHops - e.2))).sum

theorem addNeighbors_pending_weight (D maxHops hops1 : ℕ)
    (ns : List String) (affected : List String) (pending : List (String × ℕ)) :
    queueWeight D maxHops (addNeighbors hops1 ns affected pending).2 ≤
      queueWeight D maxHops pending + ns.length * (D + 1) ^ (maxHops - hops1) := by
  induction ns generalizing affected pending with
  | nil => simp [addNeighbors]
  | cons n ns ih =>
    simp only [addNeighbors]
    by_cases h : n ∈ affected
    · simp only [h, if_true]
      calc queueWeight D maxHops (addNeighbors hops1 ns affected pending).2 ≤
            queueWeight D maxHops pending + ns.length * (D + 1) ^ (maxHops - hops1) :=
              ih affected pending
        _ ≤ _ := by
            simp only [List.length_cons]
            exact Nat.add_le_add_left (Nat.mul_le_mul_right _ (Nat.le_succ _)) _
    · simp only [h, if_false]
      calc queueWeight D maxHops
            (addNeighbors hops1 ns (affected ++ [n]) (pending ++ [(n, hops1)])).2 ≤
            queueWeight D maxHops (pending ++ [(n, hops1)]) +
              ns.length * (D + 1) ^ (maxHops - hops1) := ih _ _
        _ = queueWeight D maxHops pending + (D + 1) ^ (maxHops - hops1) +
              ns.length * (D + 1) ^ (maxHops - hops1) := by
            simp [queueWeight]
        _ ≤ _ := by
            simp only [List.length_cons]
            have : (ns.length + 1) * (D + 1) ^ (maxHops - hops1) =
                (D + 1) ^ (maxHops - hops1) +
                  ns.length * (D + 1) ^ (maxHops - hops1) := by ring
            omega

/-- The `while queue:` loop of `_find_affected_segments`.  Entries whose hop
count has reached `max_hops` are dropped; otherwise every not-yet-affected
neighbor is marked affected and enqueued at the back (`queue.pop(0)` /
`queue.append` FIFO discipline). -/
def bfsLoop (g : Graph) (maxHops : ℕ) :
    List String → List (String × ℕ) → List String
  | affected, [] => affected
  | affected, (cur, hops) :: rest =>
    if maxHops ≤ hops then bfsLoop g maxHops affected rest
    else
      bfsLoop g maxHops (addNeighbors (hops + 1) (g.get cur) affected []).1
        (rest ++ (addNeighbors (hops + 1) (g.get cur) affected []).2)
termination_by affected queue => queueWeight g.maxDeg maxHops queue
decreasing_by
  · have hw : 1 ≤ (g.maxDeg + 1) ^ (maxHops - hops) := Nat.one_le_pow _ _ (by omega)
    simp only [queueWeight, List.map_cons, List.sum_cons]
    omega
  · have hle := addNeighbors_pending_weight g.maxDeg maxHops (hops + 1)
      (g.get cur) affected []
    have hlen : (g.get cur).length ≤ g.maxDeg := Graph.get_length_le g cur
    have hexp : maxHops - hops = (maxHops - (hops + 1)) + 1 := by omega
    have hpow : (g.get cur).length * (g.maxDeg + 1) ^ (maxHops - (hops + 1)) <
        (g.maxDeg + 1) ^ (maxHops - hops) := by
      rw [hexp, pow_succ]
      have h1 : 0 < (g.maxDeg + 1) ^ (maxHops - (hops + 1)) :=
        Nat.pos_pow_of_pos _ (by omega)
      calc (g.get cur).length * (g.maxDeg + 1) ^ (maxHops - (hops + 1)) ≤
            g.maxDeg * (g.maxDeg + 1) ^ (maxHops - (hops + 1)) :=
              Nat.mul_le_mul_right _ hlen
        _ < (g.maxDeg + 1) * (g.maxDeg + 1) ^ (maxHops - (hops + 1)) :=
              (Nat.mul_lt_mul_right h1).mpr (Nat.lt_succ_self _)
        _ = (g.maxDeg + 1) ^ (maxHops - (hops + 1)) * (g.maxDeg + 1) :=
              mul_comm _ _
    simp only [queueWeight, List.map_cons, List.sum_cons, List.map_append,
      List.sum_append, List.map_nil, List.sum_nil] at *
    omega

/-- `_find_affected_segments(segment_id, max_hops)`: BFS from `segment_id`,
returning the affected list (the source's `list(affected)`, in insertion
order). -/
def findAffectedSegments (g : Graph) (segmentId : String) (maxHops : ℕ) :
    List String :=
  bfsLoop g maxHops [segmentId] [(segmentId, 0)]

/-! ## `_get_hop_distance` (unbounded BFS with late visited check) -/

/-- The `for neighbor in neighbors` push step of `_get_hop_distance`:
neighbors of `cur` not in the (already updated) visited list are appended
with hop count `hops + 1`.  `vis` is the source's `visited` after
`visited.add(current)`. -/
def hopPushed (g : Graph) (cur : String) (vis : List String) (hops : ℕ) :
    List (String × ℕ) :=
  ((g.get cur).filter (fun n => !decide (n ∈ vis))).map (fun n => (n, hops + 1))

theorem hopPushed_length_le (g : Graph) (cur : String) (vis : List String)
    (hops : ℕ) : (hopPushed g cur vis hops).length ≤ g.maxDeg := by
  unfold hopPushed
  rw [List.length_map]
  exact le_trans (List.length_filter_le _ _) (Graph.get_length_le g cur)

theorem hopPushed_fst_mem_univ (g : Graph) (cur : String) (vis : List String)
    (hops : ℕ) : ∀ e ∈ hopPushed g cur vis hops, e.1 ∈ g.univ := by
  intro e he
  unfold hopPushed at he
  rcases List.mem_map.mp he with ⟨n, hn, rfl⟩
  exact Graph.get_subset_univ g cur n (List.mem_of_mem_filter hn)

/-- Termination measure for `_get_hop_distance`: queued-or-listed strings not
yet visited, weighted against the queue length; not part of the source. -/
def hopMeasure (g : Graph) (visited : List String)
    (queue : List (String × ℕ)) : ℕ :=
  (g.maxDeg + 2) *
      ((queue.map Prod.fst ++ g.univ).toFinset \ visited.toFinset).card +
    queue.length

theorem hopMeasure_skip (g : Graph) (visited : List String) (cur : String)
    (hops : ℕ) (rest : List (String × ℕ)) :
    hopMeasure g visited rest < hopMeasure g visited ((cur, hops) :: rest) := by
  have hsub : (rest.map Prod.fst ++ g.univ).toFinset \ visited.toFinset ⊆
      (((cur, hops) :: rest).map Prod.fst ++ g.univ).toFinset \
        visited.toFinset := by
    apply Finset.sdiff_subset_sdiff _ (le_refl _)
    intro x hx
    simp only [List.toFinset_append, Finset.mem_union, List.mem_toFinset,
      List.map_cons, List.mem_cons] at *
    tauto
  have hcard := Finset.card_le_card hsub
  have hmul := Nat.mul_le_mul_left (g.maxDeg + 2) hcard
  unfold hopMeasure
  simp only [List.length_cons]
  omega

theorem hopMeasure_visit (g : Graph) (visited : List String) (cur : String)
    (hops : ℕ) (rest : List (String × ℕ)) (hnv : cur ∉ visited) :
    hopMeasure g (visited ++ [cur])
        (rest ++ hopPushed g cur (visited ++ [cur]) hops) <
      hopMeasure g visited ((cur, hops) :: rest) := by
  have hcur : cur ∈ (((cur, hops) :: rest).map Prod.fst ++ g.univ).toFinset \
      visited.toFinset := by
    rw [Finset.mem_sdiff, List.mem_toFinset, List.mem_toFinset]
    exact ⟨List.mem_append_left _ (List.mem_map_of_mem Prod.fst
      (List.mem_cons_self _ _)), hnv⟩
  have hsub : ((rest ++ hopPushed g cur (visited ++ [cur]) hops).map Prod.fst
        ++ g.univ).toFinset \ (visited ++ [cur]).toFinset ⊆
      ((((cur, hops) :: rest).map Prod.fst ++ g.univ).toFinset \
        visited.toFinset).erase cur := by
    intro x hx
    simp only [Finset.mem_sdiff, List.mem_toFinset, List.mem_append,
      List.map_append, List.map_cons, List.mem_cons, List.mem_singleton,
      Finset.mem_erase] at *
    obtain ⟨hbase, hnvx⟩ := hx
    push_neg at hnvx
    refine ⟨hnvx.2.1, ?_, hnvx.1⟩
    rcases hbase with (hx1 | hx2) | hx3
    · exact Or.inl (Or.inr hx1)
    · rcases List.mem_map.mp hx2 with ⟨e, he, rfl⟩
      exact Or.inr (hopPushed_fst_mem_univ g cur (visited ++ [cur]) hops e he)
    · exact Or.inr hx3
  have hcard : (((rest ++ hopPushed g cur (visited ++ [cur]) hops).map Prod.fst
        ++ g.univ).toFinset \ (visited ++ [cur]).toFinset).card ≤
      ((((cur, hops) :: rest).map Prod.fst ++ g.univ).toFinset \
        visited.toFinset).card - 1 := by
    calc _ ≤ (((((cur, hops) :: rest).map Prod.fst ++ g.univ).toFinset \
          visited.toFinset).erase cur).card := Finset.card_le_card hsub
      _ = _ := Finset.card_erase_of_mem hcur
  have hpos : 1 ≤ ((((cur, hops) :: rest).map Prod.fst ++ g.univ).toFinset \
      visited.toFinset).card := Finset.card_pos.mpr ⟨cur, hcur⟩
  have hplen := hopPushed_length_le g cur (visited ++ [cur]) hops
  have hmul := Nat.mul_le_mul_left (g.maxDeg + 2) hcard
  have hexpand := Nat.sub_add_cancel hpos
  unfold hopMeasure
  simp only [List.length_append, List.length_cons]
  set A := (((rest ++ hopPushed g cur (visited ++ [cur]) hops).map Prod.fst
      ++ g.univ).toFinset \ (visited ++ [cur]).toFinset).card with hA
  set B := ((((cur, hops) :: rest).map Prod.fst ++ g.univ).toFinset \
      visited.toFinset).card with hB
  have h1 : (g.maxDeg + 2) * A + (g.maxDeg + 2) ≤ (g.maxDeg + 2) * B := by
    calc (g.maxDeg + 2) * A + (g.maxDeg + 2) = (g.maxDeg + 2) * (A + 1) := by
          ring
      _ ≤ (g.maxDeg + 2) * B := Nat.mul_le_mul_left _ (by omega)
  omega

/-- The `while queue:` loop of `_get_hop_distance`: pop FIFO, return the hop
count on reaching the target, skip already-visited nodes, otherwise mark the
node visited and enqueue its unvisited neighbors; `10` when the queue runs
out (the source's unreachable sentinel). -/
def hopLoop (g : Graph) (target : String) :
    List String → List (String × ℕ) → ℕ
  | _, [] => 10
  | visited, (cur, hops) :: rest =>
    if cur = target then hops
    else if cur ∈ visited then hopLoop g target visited rest
    else hopLoop g target (visited ++ [cur])
      (rest ++ hopPushed g cur (visited ++ [cur]) hops)
termination_by visited queue => hopMeasure g visited queue
decreasing_by
  · exact hopMeasure_skip g _ _ _ _
  · exact hopMeasure_visit g _ _ _ _ (by assumption)

/-- `_get_hop_distance(seg1, seg2)`: 0 for equal segments, otherwise BFS
distance, with sentinel 10 when `seg2` is unreachable. -/
def hopDistance (g : Graph) (seg1 seg2 : String) : ℕ :=
  if seg1 = seg2 then 0 else hopLoop g seg2 [] [(seg1, 0)]

/-! ## Segment-status DataFrames

The frame handed to the what-if service is built in `create_whatif_scenario`
with columns `segment_id`, `timestamp`, `risk_score`.  The optional columns
are the ones later added in place by `_find_best_time_window` (on its copy)
and `_prepare_model_features` (on its copies); a fresh row has them absent.
Timestamps are embedded as minutes since an epoch. -/

structure WRow where
  segment_id : String
  timestamp : ℕ
  risk_score : ℚ
  hour : Option ℕ := none
  traffic_density : Option ℚ := none
  vehicle_count : Option ℚ := none
  signal_id : Option ℤ := none
  deriving DecidableEq, Repr, Inhabited

abbrev Frame := List WRow

/-- `pd.to_datetime(ts).dt.hour` for a minutes-since-epoch timestamp. -/
def hourOf (ts : ℕ) : ℕ := ts / 60 % 24

/-- Mean of a list of rationals (`Series.mean`); division by zero only for
the empty list, which every call site excludes. -/
def meanQ (l : List ℚ) : ℚ := l.sum / l.length

/-! Stable insertion sort by a key, embedding `sort_values` (pandas leaves
the relative order of tied keys unspecified; every property proved below is
independent of the tie order). -/

def insertByKey {α β : Type} [LinearOrder β] (key : α → β) (a : α) :
    List α → List α
  | [] => [a]
  | b :: bs => if key a ≤ key b then a :: b :: bs else b :: insertByKey key a bs

def sortByKey {α β : Type} [LinearOrder β] (key : α → β) : List α → List α
  | [] => []
  | a :: as => insertByKey key a (sortByKey key as)

/-! ## A reference heap of DataFrames

pandas frames are mutable; to state which frames a function mutates, the
embedding threads an explicit heap of frames.  Fresh frames produced by
filtering, `.copy()`, `tail`, or `sort_values` are allocated; in-place
column assignments are writes to the owning reference. -/

abbrev Heap := List Frame

def Heap.read (h : Heap) (r : ℕ) : Frame := h.getD r []

def Heap.alloc (h : Heap) (f : Frame) : ℕ × Heap := (h.length, h ++ [f])

def Heap.write (h : Heap) (r : ℕ) (f : Frame) : Heap := h.set r f

theorem Heap.read_alloc (h : Heap) (f : Frame) {r : ℕ} (hr : r < h.length) :
    (h.alloc f).2.read r = h.read r := by
  simp only [Heap.alloc, Heap.read]
  rw [List.getD_eq_getElem?_getD, List.getD_eq_getElem?_getD,
    List.getElem?_append_left hr]

theorem Heap.read_write_ne (h : Heap) (f : Frame) {r r2 : ℕ} (hne : r ≠ r2) :
    (h.write r2 f).read r = h.read r := by
  simp only [Heap.write, Heap.read]
  rw [List.getD_eq_getElem?_getD, List.getD_eq_getElem?_getD,
    List.getElem?_set_ne (Ne.symm hne)]

theorem Heap.write_length (h : Heap) (r : ℕ) (f : Frame) :
    (h.write r f).length = h.length := by
  simp [Heap.write]

theorem Heap.alloc_length (h : Heap) (f : Frame) :
    (h.alloc f).2.length = h.length + 1 := by
  simp [Heap.alloc]

/-! ## `_find_best_time_window` -/

/-- `_find_best_time_window(seg_status_df, segment_id, duration_hours)` over
the heap: filter-and-copy the segment rows, default window on empty data,
otherwise write the `hour` column on the copy, group by hour with mean
`risk_score` (pandas groups in ascending key order), sort the hourly means
ascending, and take the window of `duration_hours` starting at the first
(lowest-mean) hour, wrapping modulo 24. -/
def findBestTimeWindowH (heap : Heap) (dfRef : ℕ) (segmentId : String)
    (durationHours : ℤ) : Window × Heap :=
  let df := heap.read dfRef
  let (segRef, h1) := heap.alloc (df.filter (fun r => r.segment_id == segmentId))
  let segData := h1.read segRef
  if segData.isEmpty then (⟨"01:00", "07:00"⟩, h1)
  else
    let h2 := h1.write segRef
      (segData.map (fun r => { r with hour := some (hourOf r.timestamp) }))
    let segData2 := h2.read segRef
    let hourlyAvg := (List.range 24).filterMap (fun hr =>
      let grp := segData2.filter (fun r => r.hour == some hr)
      if grp.isEmpty then none
      else some (hr, meanQ (grp.map (fun r => r.risk_score))))
    let sortedHours := (sortByKey Prod.snd hourlyAvg).map Prod.fst
    let bestStart := sortedHours.headD 0
    let bestEnd := ((bestStart : ℤ) + durationHours) % 24
    (⟨fmtHour bestStart, fmtHour bestEnd.toNat⟩, h2)

/-- `_find_best_time_window` as called by the scenario runners (fresh heap
holding only the caller's frame). -/
def findBestTimeWindow (df : Frame) (segmentId : String)
    (durationHours : ℤ) : Window :=
  (findBestTimeWindowH [df] 0 segmentId durationHours).1

/-! ## `_get_current_density` -/

/-- `_get_current_density(seg_status_df, segment_id)` over the heap: filter
(a fresh frame), default 0.5 on empty, otherwise sort by timestamp (a fresh
frame) and take `iloc[-1]`; `latest.get("risk_score", 0.5)` reads the
`risk_score` column, which every caller's frame carries, so the 0.5 default
of `.get` is dead. -/
def getCurrentDensityH (heap : Heap) (dfRef : ℕ) (segmentId : String) :
    ℚ × Heap :=
  let df := heap.read dfRef
  let (segRef, h1) := heap.alloc (df.filter (fun r => r.segment_id == segmentId))
  let segData := h1.read segRef
  if segData.isEmpty then (1/2, h1)
  else
    let (sortRef, h2) := h1.alloc (sortByKey (fun r => r.timestamp) segData)
    let latest := (h2.read sortRef).getLastD default
    (latest.risk_score, h2)

/-- `_get_current_density` as called by the scenario runners. -/
def getCurrentDensity (df : Frame) (segmentId : String) : ℚ :=
  (getCurrentDensityH [df] 0 segmentId).1

/-! ## `_prepare_model_features` -/

/-- `_prepare_model_features(seg_data, current_density, scenario_density)`
over the heap: `None` when fewer than two rows; otherwise copy the last 24
rows (`tail(24).copy()`), rewrite its `timestamp` column (the to_datetime
conversion, an identity on the embedded timestamps), and build the `before`
and `after` copies with `traffic_density`, `vehicle_count`, `signal_id`
column writes.  The surrounding `try` has no failing operation on this
path. -/
def prepareModelFeaturesH (heap : Heap) (segRef : ℕ)
    (currentDensity scenarioDensity : ℚ) : Option (Frame × Frame) × Heap :=
  let segData := heap.read segRef
  if segData.isEmpty ∨ segData.length < 2 then (none, heap)
  else
    let (recentRef, h1) := heap.alloc (segData.drop (segData.length - 24))
    let h2 := h1.write recentRef (h1.read recentRef)
    let (beforeRef, h3) := h2.alloc (h2.read recentRef)
    let h4 := h3.write beforeRef ((h3.read beforeRef).map
      (fun r => { r with traffic_density := some currentDensity }))
    let h5 := h4.write beforeRef ((h4.read beforeRef).map
      (fun r => { r with vehicle_count := some (currentDensity * 100) }))
    let h6 := h5.write beforeRef ((h5.read beforeRef).map
      (fun r => { r with signal_id := some 1 }))
    let (afterRef, h7) := h6.alloc (h6.read recentRef)
    let h8 := h7.write afterRef ((h7.read afterRef).map
      (fun r => { r with traffic_density := some scenarioDensity }))
    let h9 := h8.write afterRef ((h8.read afterRef).map
      (fun r => { r with vehicle_count := some (scenarioDensity * 100) }))
    let h10 := h9.write afterRef ((h9.read afterRef).map
      (fun r => { r with signal_id := some 1 }))
    (some (h10.read beforeRef, h10.read afterRef), h10)

/-- `_prepare_model_features` as called by `_calculate_impact_with_model`. -/
def prepareModelFeatures (segData : Frame)
    (currentDensity scenarioDensity : ℚ) : Option (Frame × Frame) :=
  (prepareModelFeaturesH [segData] 0 currentDensity scenarioDensity).1

/-! ## The what-if service state (`TrafficWhatIfService.__init__`)

`__init__` assigns `segment_neighbors` (empty), the lazily loaded traffic
model, `use_model`, the per-scenario multiplier dictionary (embedded below
as literal constants at each use site, as the source reads fixed keys of a
fixed dictionary), and `diversion_factor = 0.4`.  It never assigns
`lane_capacity_reduction`, although `_calculate_direct_impact` and
`_calculate_impact_with_model` read `self.lane_capacity_reduction`; the
attribute is absent, which the embedding records as `none`. -/

structure WhatIfService where
  segmentNeighbors : Graph
  useModel : Bool
  trafficModel : Option (Frame → Frame)
  diversionFactor : ℚ
  laneCapacityReduction : Option ℚ

/-- `TrafficWhatIfService(use_model=...)` freshly constructed; the model
argument is the artifact loaded by `_load_traffic_model` when present
(`use_model` stays `True` exactly when loading succeeded). -/
def mkService (model : Option (Frame → Frame)) : WhatIfService :=
  { segmentNeighbors := []
    useModel := model.isSome
    trafficModel := model
    diversionFactor := 2/5
    laneCapacityReduction := none }

/-- `_init_default_neighbors`: the NSB_001 … NSB_049 chain. -/
def nsbId (i : ℕ) : String :=
  "NSB_" ++ (if i < 10 then "00" else if i < 100 then "0" else "") ++ toString i

def defaultNeighbors : Graph :=
  (List.range' 1 49).map (fun i =>
    (nsbId i, (if 1 < i then [nsbId (i - 1)] else []) ++
      (if i < 49 then [nsbId (i + 1)] else [])))

/-- The `if not self.segment_neighbors: self._init_default_neighbors()`
prelude of every scenario runner. -/
def resolveGraph (svc : WhatIfService) : Graph :=
  if svc.segmentNeighbors.isEmpty then defaultNeighbors else svc.segmentNeighbors

/-! ## Impact formulas -/

/-- `_calculate_direct_impact(current_density, lane_closed)`:
`capacity_reduction = lane_closed * self.lane_capacity_reduction` —
`AttributeError` on the service as constructed, since the attribute is
never assigned — then `min(100, capacity_reduction * current_density * 100)`. -/
def calcDirectImpact (svc : WhatIfService) (currentDensity : ℚ)
    (laneClosed : ℤ) : Except PyError ℚ :=
  match svc.laneCapacityReduction with
  | none => .error .attributeError
  | some lcr => .ok (min 100 ((laneClosed : ℚ) * lcr * currentDensity * 100))

/-- Python `hops ** 1.5`. -/
noncomputable def pow15 (h : ℕ) : ℝ := (h : ℝ) ^ (1.5 : ℝ)

/-- The body of `_calculate_indirect_impact` after the hop count is known:
0 at hop 0, otherwise `min(50, closed_density * (diversion_factor /
hops ** 1.5) * lane_closed * 20)`. -/
noncomputable def calcIndirectImpactAtHops (svc : WhatIfService) (hops : ℕ)
    (closedDensity : ℚ) (laneClosed : ℤ) : ℝ :=
  if hops = 0 then 0
  else
    min 50 ((closedDensity : ℝ) * ((svc.diversionFactor : ℝ) / pow15 hops) *
      (laneClosed : ℝ) * 20)

/-- `_calculate_indirect_impact(affected_seg, closed_seg, closed_density,
lane_closed)`; `g` is the service's (possibly defaulted) neighbor graph. -/
noncomputable def calcIndirectImpact (svc : WhatIfService) (g : Graph)
    (affectedSeg closedSeg : String) (closedDensity : ℚ)
    (laneClosed : ℤ) : ℝ :=
  calcIndirectImpactAtHops svc (hopDistance g closedSeg affectedSeg)
    closedDensity laneClosed

/-- Python `int(x)` on a float embedded as a real: truncation toward 0. -/
noncomputable def pyIntR (x : ℝ) : ℤ := if 0 ≤ x then ⌊x⌋ else -⌊-x⌋

/-! ## `_calculate_impact_with_model` -/

/-- One iteration of the `for affected_seg in affected_segments:` loop of
`_calculate_impact_with_model`: the body under the outer `try`, the broad
`except Exception` retry with the simple formulas, and the final
`int(min(100, max(0, delay_increase)))` clamp.  In the model branch the
predictions are DataFrames carrying the string `segment_id` and categorical
`signal_id` columns, whose elementwise subtraction `after_pred -
before_pred` raises `TypeError`, caught by the inner `except` (so every
surviving path uses `(scenario_density - current_density) * 100 * 1.5`). -/
noncomputable def segImpactWithModel (svc : WhatIfService) (g : Graph)
    (df : Frame) (closedSegmentId : String) (laneClosed : ℤ)
    (baseDensity : ℚ) (affectedSeg : String) : Except PyError ℤ :=
  let segData := df.filter (fun r => r.segment_id == affectedSeg)
  let body : Except PyError ℝ :=
    if segData.isEmpty then
      if affectedSeg == closedSegmentId then
        (calcDirectImpact svc baseDensity laneClosed).map (fun q => (q : ℝ))
      else
        .ok (calcIndirectImpact svc g affectedSeg closedSegmentId baseDensity
          laneClosed)
    else
      let currentDensity := (segData.getLastD default).risk_score
      let scenarioDensityE : Except PyError ℚ :=
        if affectedSeg == closedSegmentId then
          match svc.laneCapacityReduction with
          | none => .error .attributeError
          | some lcr =>
            .ok (min 1 (currentDensity / (1 - (laneClosed : ℚ) * lcr)))
        else
          let hops := hopDistance g closedSegmentId affectedSeg
          let diversion := svc.diversionFactor / ((hops : ℚ) + 1)
          let divertedTraffic := baseDensity * diversion
          .ok (min 1 (currentDensity + divertedTraffic * (3/10)))
      scenarioDensityE.bind (fun scenarioDensity =>
        let inner : Except PyError ℝ :=
          match prepareModelFeatures segData currentDensity scenarioDensity,
            svc.trafficModel with
          | some _, some _ => .error .typeError
          | _, _ =>
            .ok ((((scenarioDensity - currentDensity) * 100 : ℚ) : ℝ) * (3/2))
        match inner with
        | .ok v => .ok v
        | .error _ =>
          .ok ((((scenarioDensity - currentDensity) * 100 : ℚ) : ℝ) * (3/2)))
  let delay : Except PyError ℝ :=
    match body with
    | .ok v => .ok v
    | .error _ =>
      if affectedSeg == closedSegmentId then
        (calcDirectImpact svc baseDensity laneClosed).map (fun q => (q : ℝ))
      else
        .ok (calcIndirectImpact svc g affectedSeg closedSegmentId baseDensity
          laneClosed)
  delay.map (fun x => pyIntR (min 100 (max 0 x)))

/-- `_calculate_impact_with_model(seg_status_df, affected_segments,
closed_segment_id, lane_closed, base_density)`; an uncaught exception in
some iteration aborts the whole loop (`mapM` over `Except`). -/
noncomputable def calcImpactWithModel (svc : WhatIfService) (g : Graph)
    (df : Frame) (affectedSegments : List String) (closedSegmentId : String)
    (laneClosed : ℤ) (baseDensity : ℚ) :
    Except PyError (List (String × ℤ)) :=
  affectedSegments.mapM (fun seg =>
    (segImpactWithModel svc g df closedSegmentId laneClosed baseDensity
      seg).map (fun d => (seg, d)))

/-! ## Scenario results and runners -/

/-- A scenario result dict; `affected_segments` is the list of
`{"segment_id": ..., "delay_increase_pct": ...}` entries in loop order.
The scenario-specific static `impact` metadata (a copy of the request
parameters) is omitted. -/
structure ScenarioResult where
  scenario : String
  segment_id : String
  start_time : Option String
  affected_segments : List (String × ℤ)
  best_time_window : Window
  summary : String

/-- `_generate_summary`; `max(..., default=0)` is the maximum
`delay_increase_pct` with 0 for the empty list. -/
def generateSummary (svc : WhatIfService) (segmentId : String)
    (laneClosed durationHours : ℤ) (affected : List (String × ℤ))
    (w : Window) : String :=
  let maxImpact := ((affected.map Prod.snd).max?).getD 0
  let method := if svc.useModel ∧ svc.trafficModel.isSome then "model tabanlı"
    else "algoritma tabanlı"
  segmentId ++ " segmentinde " ++ toString laneClosed ++ " şerit kapatma (" ++
    toString durationHours ++ "s) en düşük etki için " ++ w.start ++ "-" ++
    w.stop ++ " aralığında önerilir. " ++ toString affected.length ++
    " segment etkilenecek, maksimum gecikme artışı %" ++ toString maxImpact ++
    ". (Hesaplama: " ++ method ++ ")"

/-- `_run_road_work_scenario`. -/
noncomputable def runRoadWorkScenario (svc : WhatIfService) (df : Frame)
    (segmentId : String) (laneClosed durationHours : ℤ)
    (startTime : Option String) (maxHops : ℕ) :
    Except PyError ScenarioResult := do
  let g := resolveGraph svc
  let affectedSegments := findAffectedSegments g segmentId maxHops
  let currentDensity := getCurrentDensity df segmentId
  let impactResults ←
    if svc.useModel ∧ svc.trafficModel.isSome then
      calcImpactWithModel svc g df affectedSegments segmentId laneClosed
        currentDensity
    else
      affectedSegments.mapM (fun seg =>
        if seg == segmentId then
          (calcDirectImpact svc currentDensity laneClosed).map
            (fun q => (seg, pyInt q))
        else
          .ok (seg, pyIntR (calcIndirectImpact svc g seg segmentId
            currentDensity laneClosed)))
  let bestWindow := findBestTimeWindow df segmentId durationHours
  .ok { scenario := "road_work", segment_id := segmentId,
        start_time := startTime, affected_segments := impactResults,
        best_time_window := bestWindow,
        summary := generateSummary svc segmentId laneClosed durationHours
          impactResults bestWindow }

/-- `what_if_road_work` (the backwards-compatibility alias used by the
endpoint). -/
noncomputable def whatIfRoadWork (svc : WhatIfService) (df : Frame)
    (segmentId : String) (laneClosed durationHours : ℤ)
    (startTime : Option String) (maxHops : ℕ) :
    Except PyError ScenarioResult :=
  runRoadWorkScenario svc df segmentId laneClosed durationHours startTime
    maxHops

/-- `_run_pipe_burst_scenario`: BFS radius `max_hops + 2`, impacts with
`lane_closed=3` times the `urgency_bonus = 1.5`, clamp
`int(min(100, delay))`. -/
noncomputable def runPipeBurstScenario (svc : WhatIfService) (df : Frame)
    (segmentId : String) (durationHours : ℤ) (startTime : Option String)
    (maxHops : ℕ) : Except PyError ScenarioResult := do
  let g := resolveGraph svc
  let affectedSegments := findAffectedSegments g segmentId (maxHops + 2)
  let currentDensity := getCurrentDensity df segmentId
  let impactResults ← affectedSegments.mapM (fun seg =>
    (if seg == segmentId then
      (calcDirectImpact svc currentDensity 3).map (fun q => (q : ℝ) * (3/2))
    else
      .ok (calcIndirectImpact svc g seg segmentId currentDensity 3 *
        (3/2))).map (fun d => (seg, pyIntR (min 100 d))))
  let bestWindow := findBestTimeWindow df segmentId durationHours
  .ok { scenario := "pipe_burst", segment_id := segmentId,
        start_time := startTime, affected_segments := impactResults,
        best_time_window := bestWindow,
        summary := "🚨 " ++ segmentId ++ " segmentinde boru patlaması (" ++
          toString durationHours ++ "s) acil müdahale gerektirir. " ++
          toString impactResults.length ++ " segment etkilenecek. " ++
          "En az etki için " ++ bestWindow.start ++ "-" ++ bestWindow.stop ++
          " aralığında müdahale önerilir." }

/-- `_run_accident_scenario`: BFS radius `max_hops - 1` (for `max_hops = 0`
Python would use -1, which skips every queue entry exactly as truncated
subtraction does), impacts with `lane_closed=1` times
`duration_multiplier = 0.5`, clamp `int(min(50, delay))`, and a fixed
`best_time_window` of 00:00–23:59. -/
noncomputable def runAccidentScenario (svc : WhatIfService) (df : Frame)
    (segmentId : String) (durationHours : ℤ) (startTime : Option String)
    (maxHops : ℕ) : Except PyError ScenarioResult := do
  let g := resolveGraph svc
  let affectedSegments := findAffectedSegments g segmentId (maxHops - 1)
  let currentDensity := getCurrentDensity df segmentId
  let impactResults ← affectedSegments.mapM (fun seg =>
    (if seg == segmentId then
      (calcDirectImpact svc currentDensity 1).map (fun q => (q : ℝ) * (1/2))
    else
      .ok (calcIndirectImpact svc g seg segmentId currentDensity 1 *
        (1/2))).map (fun d => (seg, pyIntR (min 50 d))))
  let maxImpact := ((impactResults.map Prod.snd).max?).getD 0
  .ok { scenario := "accident", segment_id := segmentId,
        start_time := startTime, affected_segments := impactResults,
        best_time_window := ⟨"00:00", "23:59"⟩,
        summary := "⚠️ " ++ segmentId ++ " segmentinde trafik kazası (" ++
          toString durationHours ++ "s) acil müdahale gerektirir. " ++
          toString impactResults.length ++ " segment etkilenecek. " ++
          "Maksimum gecikme artışı %" ++ toString maxImpact ++ "." }

/-- `_run_event_scenario`: BFS radius `max_hops + 3`, traffic increase
`min(0.5, attendance / 10000)` decaying as `1 / (hops + 1)`, clamp
`int(min(80, increase))`, computed best time window. -/
def runEventScenario (svc : WhatIfService) (df : Frame) (segmentId : String)
    (eventAttendance durationHours : ℤ) (startTime : Option String)
    (maxHops : ℕ) : Except PyError ScenarioResult :=
  let g := resolveGraph svc
  let affectedSegments := findAffectedSegments g segmentId (maxHops + 3)
  let _currentDensity := getCurrentDensity df segmentId
  let trafficIncreaseBase : ℚ := min (1/2) ((eventAttendance : ℚ) / 10000)
  let impactResults := affectedSegments.map (fun seg =>
    let hops := hopDistance g segmentId seg
    let distanceFactor : ℚ := 1 / ((hops : ℚ) + 1)
    let trafficIncrease := trafficIncreaseBase * distanceFactor * 100
    (seg, pyInt (min 80 trafficIncrease)))
  let bestWindow := findBestTimeWindow df segmentId durationHours
  .ok { scenario := "event", segment_id := segmentId,
        start_time := startTime, affected_segments := impactResults,
        best_time_window := bestWindow,
        summary := "🎉 " ++ segmentId ++ " segmentinde etkinlik (" ++
          toString eventAttendance ++ " kişi, " ++ toString durationHours ++
          "s) " ++ toString impactResults.length ++ " segment etkilenecek. " ++
          "En az etki için " ++ bestWindow.start ++ "-" ++ bestWindow.stop ++
          " saatleri önerilir." }

/-- `_run_weather_scenario`: BFS radius `max_hops + 5`, per-segment delay
`(0.2 * weather_severity) * current_density * 100`, clamp
`int(min(60, delay))`, fixed `best_time_window` of 00:00–23:59. -/
def runWeatherScenario (svc : WhatIfService) (df : Frame) (segmentId : String)
    (weatherSeverity : ℚ) (durationHours : ℤ) (startTime : Option String)
    (maxHops : ℕ) : Except PyError ScenarioResult :=
  let g := resolveGraph svc
  let affectedSegments := findAffectedSegments g segmentId (maxHops + 5)
  let currentDensity := getCurrentDensity df segmentId
  let impactResults := affectedSegments.map (fun seg =>
    let capacityReduction := (1/5 : ℚ) * weatherSeverity
    let delayIncrease := capacityReduction * currentDensity * 100
    (seg, pyInt (min 60 delayIncrease)))
  let severityText := if weatherSeverity < 3/10 then "Hafif"
    else if weatherSeverity < 7/10 then "Orta" else "Şiddetli"
  .ok { scenario := "weather", segment_id := segmentId,
        start_time := startTime, affected_segments := impactResults,
        best_time_window := ⟨"00:00", "23:59"⟩,
        summary := "🌧️ " ++ severityText ++ " hava durumu (" ++
          toString durationHours ++ "s) " ++
          toString impactResults.length ++ " segment etkilenecek. " ++
          "Bölgesel kapasite azalması bekleniyor." }

/-- `run_scenario(scenario_type, ...)`: `ScenarioType(scenario_type)` raises
`ValueError` for an unknown scenario string before any computation;
otherwise dispatch on the type.  `event_attendance` and `weather_severity`
are the optional kwargs with defaults 1000 and 0.5. -/
noncomputable def runScenario (svc : WhatIfService) (scenarioType : String)
    (df : Frame) (segmentId : String) (laneClosed durationHours : ℤ)
    (startTime : Option String) (maxHops : ℕ)
    (eventAttendance : Option ℤ) (weatherSeverity : Option ℚ) :
    Except PyError ScenarioResult :=
  if scenarioType = "road_work" then
    runRoadWorkScenario svc df segmentId laneClosed durationHours startTime
      maxHops
  else if scenarioType = "pipe_burst" then
    runPipeBurstScenario svc df segmentId durationHours startTime maxHops
  else if scenarioType = "accident" then
    runAccidentScenario svc df segmentId durationHours startTime maxHops
  else if scenarioType = "event" then
    runEventScenario svc df segmentId (eventAttendance.getD 1000)
      durationHours startTime maxHops
  else if scenarioType = "weather" then
    runWeatherScenario svc df segmentId (weatherSeverity.getD (1/2))
      durationHours startTime maxHops
  else .error .valueError

/-! ## The endpoint and its request schema -/

/-- `WhatIfRequest` (schemas/traffic_risk.py): plain typed fields with
defaults; the schema declares no numeric constraint and no validator. -/
structure WhatIfRequest where
  segment_id : String
  lane_closed : ℤ := 1
  duration_hours : ℤ := 6
  start_time : Option String := none
  deriving DecidableEq, Repr

/-- Pydantic validation of a well-typed `WhatIfRequest` body: with no
declared constraints, every request passes. -/
def validateWhatIfRequest (r : WhatIfRequest) : Except PyError WhatIfRequest :=
  .ok r

/-- `create_whatif_scenario` (POST /what-if): `risks` is the DB query result
for the requested segment in the last 24h (ordered by timestamp); 404 when
empty, otherwise build the DataFrame with the `segment_id`, `timestamp`,
`risk_score` columns and run the road-work scenario with `max_hops=5`.
`model` is the artifact `TrafficWhatIfService()` may load. -/
noncomputable def createWhatifScenario (model : Option (Frame → Frame))
    (risks : List WRow) (req : WhatIfRequest) :
    Except PyError ScenarioResult :=
  if risks.isEmpty then .error .notFound
  else
    let df : Frame := risks.map (fun r =>
      { segment_id := r.segment_id, timestamp := r.timestamp,
        risk_score := r.risk_score })
    whatIfRoadWork (mkService model) df req.segment_id req.lane_closed
      req.duration_hours req.start_time 5

/-! ## The density forecaster (`traffic_model.py`)

`TrafficDensityModel.create_features` and `predict`.  The raw frame has
columns `signal_id`, `timestamp`, `vehicle_count`.  Feature rows carry the
engineered `traffic_density`; the further engineered columns (lags, rolling
means, trend, calendar features) are functions of these rows consumed only
through the gradient-boosted booster, which the embedding keeps abstract
(the booster's raw outputs are unconstrained reals-as-rationals), so they
do not affect the clamping properties stated here. -/

structure TRow where
  signal_id : ℤ
  timestamp : ℕ
  vehicle_count : ℚ
  deriving DecidableEq, Repr

structure FRow where
  signal_id : ℤ
  timestamp : ℕ
  vehicle_count : ℚ
  traffic_density : ℚ
  deriving DecidableEq, Repr

/-- `create_features`: copy, sort by `(signal_id, timestamp)`, compute
`max_per_signal = groupby(signal_id).vehicle_count.transform("max")
.replace(0, nan)` and `traffic_density = (vehicle_count / max_per_signal)
.clip(0, 1).fillna(0)` (a zero or absent group maximum yields NaN, clipped
to NaN and filled with 0). -/
def createFeatures (df : List TRow) : List FRow :=
  let sorted := sortByKey (fun r => toLex (r.signal_id, r.timestamp)) df
  sorted.map (fun r =>
    let grpMax := ((sorted.filter (fun q => q.signal_id == r.signal_id)).map
      (fun q => q.vehicle_count)).max?
    let maxPerSignal : Option ℚ := match grpMax with
      | some x => if x = 0 then none else some x
      | none => none
    let dens : ℚ := match maxPerSignal with
      | none => 0
      | some mv => min 1 (max 0 (r.vehicle_count / mv))
    { signal_id := r.signal_id, timestamp := r.timestamp,
      vehicle_count := r.vehicle_count, traffic_density := dens })

/-- `predict`: feature-engineer the copy, run the booster, clip the raw
predictions to [0, 1] and attach them as the `expected_2h` column (pairing
each feature row with its prediction). -/
def TrafficDensityModel.predict (booster : List FRow → List ℚ)
    (df : List TRow) : List (FRow × ℚ) :=
  let feats := createFeatures df
  feats.zip ((booster feats).map (fun p => min 1 (max 0 p)))

/-! ## Sorting lemmas (head of an ascending sort is an argmin, last is an
argmax; both statements are independent of how ties are broken) -/

theorem insertByKey_ne_nil {α β : Type} [LinearOrder β] (key : α → β)
    (a : α) (l : List α) : insertByKey key a l ≠ [] := by
  cases l with
  | nil => simp [insertByKey]
  | cons b bs =>
    unfold insertByKey
    by_cases h : key a ≤ key b <;> simp [h]

theorem sortByKey_eq_nil_iff {α β : Type} [LinearOrder β] (key : α → β)
    (l : List α) : sortByKey key l = [] ↔ l = [] := by
  cases l with
  | nil => simp [sortByKey]
  | cons a as =>
    simp only [sortByKey]
    exact ⟨fun h => absurd h (insertByKey_ne_nil key a _), fun h => by
      simp at h⟩

theorem insertByKey_mem {α β : Type} [LinearOrder β] (key : α → β)
    (a x : α) (l : List α) : x ∈ insertByKey key a l ↔ x = a ∨ x ∈ l := by
  induction l with
  | nil => simp [insertByKey]
  | cons b bs ih =>
    unfold insertByKey
    by_cases h : key a ≤ key b
    · simp [h, List.mem_cons]
    · simp only [h, if_false, List.mem_cons, ih]
      tauto

theorem sortByKey_mem {α β : Type} [LinearOrder β] (key : α → β)
    (x : α) (l : List α) : x ∈ sortByKey key l ↔ x ∈ l := by
  induction l with
  | nil => simp [sortByKey]
  | cons a as ih =>
    simp only [sortByKey, insertByKey_mem, ih, List.mem_cons]

theorem getLastD_of_ne_nil {α : Type} {l : List α} (h : l ≠ []) (d e : α) :
    l.getLastD d = l.getLastD e := by
  cases l with
  | nil => simp at h
  | cons a as => rw [List.getLastD_cons, List.getLastD_cons]

theorem sortByKey_headD_min {α β : Type} [LinearOrder β] (key : α → β)
    (d : α) (l : List α) : ∀ x ∈ l, key ((sortByKey key l).headD d) ≤ key x := by
  induction l with
  | nil => simp
  | cons a as ih =>
    intro x hx
    simp only [sortByKey]
    cases hs : sortByKey key as with
    | nil =>
      have has : as = [] := (sortByKey_eq_nil_iff key as).mp hs
      subst has
      simp only [List.mem_cons, List.not_mem_nil, or_false] at hx
      subst hx
      simp [insertByKey]
    | cons b bs =>
      unfold insertByKey
      by_cases h : key a ≤ key b
      · simp only [h, if_true, List.headD_cons]
        rcases List.mem_cons.mp hx with rfl | hx2
        · exact le_refl _
        · have := ih x hx2
          rw [hs] at this
          simp only [List.headD_cons] at this
          exact le_trans h this
      · simp only [h, if_false, List.headD_cons]
        rcases List.mem_cons.mp hx with rfl | hx2
        · exact le_of_not_le h
        · have := ih x hx2
          rw [hs] at this
          simpa using this

theorem insertByKey_getLastD {α β : Type} [LinearOrder β] (key : α → β)
    (a : α) (l : List α) (d : α) (hl : l ≠ []) :
    ((insertByKey key a l).getLastD d = l.getLastD d ∧ ∃ b ∈ l, key a ≤ key b)
    ∨ ((insertByKey key a l).getLastD d = a ∧ ∀ x ∈ l, key x ≤ key a) := by
  induction l generalizing d with
  | nil => simp at hl
  | cons b bs ih =>
    unfold insertByKey
    by_cases h : key a ≤ key b
    · exact Or.inl ⟨by simp [h, List.getLastD_cons], b, List.mem_cons_self _ _, h⟩
    · simp only [h, if_false]
      rw [List.getLastD_cons, List.getLastD_cons]
      by_cases hbs : bs = []
      · subst hbs
        refine Or.inr ⟨by simp [insertByKey], ?_⟩
        intro x hx
        simp only [List.mem_cons, List.not_mem_nil, or_false] at hx
        subst hx
        exact le_of_not_le h
      · rcases ih (d := b) hbs with ⟨heq, b2, hb2, hab2⟩ | ⟨heq, hall⟩
        · exact Or.inl ⟨heq, b2, List.mem_cons_of_mem _ hb2, hab2⟩
        · refine Or.inr ⟨heq, ?_⟩
          intro x hx
          rcases List.mem_cons.mp hx with rfl | hx2
          · exact le_of_not_le h
          · exact hall x hx2

theorem sortByKey_getLastD_max {α β : Type} [LinearOrder β] (key : α → β)
    (d : α) (l : List α) (hl : l ≠ []) :
    ∃ m, m ∈ l ∧ (sortByKey key l).getLastD d = m ∧
      ∀ x ∈ l, key x ≤ key m := by
  induction l generalizing d with
  | nil => simp at hl
  | cons a as ih =>
    by_cases has : as = []
    · subst has
      exact ⟨a, List.mem_cons_self _ _, by simp [sortByKey, insertByKey], by
        intro x hx
        simp only [List.mem_cons, List.not_mem_nil, or_false] at hx
        subst hx; exact le_refl _⟩
    · rcases ih (d := d) has with ⟨m, hm, hlast, hmax⟩
      have has2 : as ≠ [] := has
      have hsne : sortByKey key as ≠ [] := by
        rw [Ne, sortByKey_eq_nil_iff]; exact has2
      simp only [sortByKey]
      rcases insertByKey_getLastD key a (sortByKey key as) d hsne with
        ⟨heq, b2, hb2, hab2⟩ | ⟨heq, hall⟩
      · refine ⟨m, List.mem_cons_of_mem _ hm, by rw [heq, hlast], ?_⟩
        intro x hx
        rcases List.mem_cons.mp hx with rfl | hx2
        · have hb2as : b2 ∈ as := (sortByKey_mem key b2 as).mp hb2
          exact le_trans hab2 (hmax b2 hb2as)
        · exact hmax x hx2
      · refine ⟨a, List.mem_cons_self _ _, heq, ?_⟩
        intro x hx
        rcases List.mem_cons.mp hx with rfl | hx2
        · exact le_refl _
        · exact hall x ((sortByKey_mem key x as).mpr hx2)

/-! ## Properties of the impact formulas -/

theorem pow15_pos {h : ℕ} (hh : 1 ≤ h) : 0 < pow15 h := by
  unfold pow15
  exact Real.rpow_pos_of_pos (by exact_mod_cast hh) _

theorem pow15_le_pow15 {a b : ℕ} (hab : a ≤ b) : pow15 a ≤ pow15 b := by
  unfold pow15
  exact Real.rpow_le_rpow (Nat.cast_nonneg a) (Nat.cast_le.mpr hab)
    (by norm_num)

/-- C1.  The spec claims `_calculate_direct_impact` computes
`min(100, lanes_closed * lane_capacity_reduction * d * 100) ∈ [0, 100]`,
non-decreasing in `d` and `lanes_closed`; but `self.lane_capacity_reduction`
is never assigned by `__init__` (or anywhere else), so every call instead
raises `AttributeError`. -/
theorem c1_direct_impact_raises_attributeError :
    ∀ (model : Option (Frame → Frame)) (d : ℚ) (lanes : ℤ),
      calcDirectImpact (mkService model) d lanes =
        .error .attributeError := by
  intro model d lanes
  rfl

/-- C2.  For hop distances `1 ≤ h1 < h2` with the same (valid, nonnegative)
closed-segment density and the same nonnegative `lanes_closed`, the indirect
impact at `h1` is at least the indirect impact at `h2`: the decay
`diversion_factor / hops ** 1.5` is antitone in `hops` and the `min(50, ·)`
cap preserves the ordering. -/
theorem c2_indirect_impact_hop_antitone :
    ∀ (model : Option (Frame → Frame)) (h1 h2 : ℕ) (d : ℚ) (lanes : ℤ),
      1 ≤ h1 → h1 < h2 → 0 ≤ d → 0 ≤ lanes →
      calcIndirectImpactAtHops (mkService model) h2 d lanes ≤
        calcIndirectImpactAtHops (mkService model) h1 d lanes := by
  intro model h1 h2 d lanes hh1 hlt hd hl
  have hh2 : 1 ≤ h2 := le_trans hh1 (le_of_lt hlt)
  have hne1 : h1 ≠ 0 := by omega
  have hne2 : h2 ≠ 0 := by omega
  unfold calcIndirectImpactAtHops
  simp only [hne1, hne2, if_false]
  apply min_le_min (le_refl _)
  have hp1 : 0 < pow15 h1 := pow15_pos hh1
  have hp15 : pow15 h1 ≤ pow15 h2 := pow15_le_pow15 (le_of_lt hlt)
  have hd2 : (0 : ℝ) ≤ (d : ℚ) := by exact_mod_cast hd
  have hl2 : (0 : ℝ) ≤ ((lanes : ℤ) : ℝ) := by exact_mod_cast hl
  have hf : (0 : ℝ) ≤ (((mkService model).diversionFactor : ℚ) : ℝ) := by
    norm_num [mkService]
  gcongr

/-- C2 witness: hop 2 versus hop 1 at density 1/2 with one closed lane. -/
theorem c2_witness :
    ((1 : ℕ) ≤ 1 ∧ (1 : ℕ) < 2 ∧ (0 : ℚ) ≤ 1/2 ∧ (0 : ℤ) ≤ 1) ∧
      calcIndirectImpactAtHops (mkService none) 2 (1/2) 1 ≤
        calcIndirectImpactAtHops (mkService none) 1 (1/2) 1 :=
  ⟨by norm_num,
    c2_indirect_impact_hop_antitone none 1 2 (1/2) 1 (by norm_num)
      (by norm_num) (by norm_num) (by norm_num)⟩

/-! ## BFS properties (C3) -/

theorem addNeighbors_fst_nodup (hops1 : ℕ) (ns affected : List String)
    (pending : List (String × ℕ)) (h : affected.Nodup) :
    ((addNeighbors hops1 ns affected pending).1).Nodup := by
  induction ns generalizing affected pending with
  | nil => simpa [addNeighbors] using h
  | cons n ns ih =>
    simp only [addNeighbors]
    by_cases hn : n ∈ affected
    · simp only [hn, if_true]
      exact ih affected pending h
    · simp only [hn, if_false]
      refine ih _ _ ?_
      rw [List.nodup_append]
      exact ⟨h, List.nodup_singleton n, by simpa using hn⟩

theorem bfsLoop_nodup (g : Graph) (maxHops : ℕ) :
    ∀ (affected : List String) (queue : List (String × ℕ)),
      affected.Nodup → (bfsLoop g maxHops affected queue).Nodup := by
  intro affected queue
  induction affected, queue using bfsLoop.induct g maxHops with
  | case1 a =>
    intro h
    simpa [bfsLoop] using h
  | case2 a cur hops rest hle ih =>
    intro h
    rw [bfsLoop]
    simp only [hle, if_true]
    exact ih h
  | case3 a cur hops rest hle ih =>
    intro h
    rw [bfsLoop]
    simp only [hle, if_false]
    exact ih (addNeighbors_fst_nodup (hops + 1) (g.get cur) a [] h)

/-- C3.  BFS affected-set discovery from `x` with `max_hops = 0` returns
exactly `[x]`; for every `max_hops = N` it terminates (the embedding is a
total function, justified by the explicit well-founded measure on the
BFS state) and returns a list without duplicates, on every finite — and
possibly cyclic — adjacency mapping. -/
theorem c3_bfs_zero_and_nodup (g : Graph) (x : String) :
    findAffectedSegments g x 0 = [x] ∧
      ∀ N, (findAffectedSegments g x N).Nodup := by
  constructor
  · simp [findAffectedSegments, bfsLoop]
  · intro N
    exact bfsLoop_nodup g N [x] [(x, 0)] (List.nodup_singleton x)

/-! ## Baseline density and the endpoint's 404 (C4) -/

theorem getCurrentDensity_eq (df : Frame) (segmentId : String) :
    getCurrentDensity df segmentId =
      if (df.filter (fun r => r.segment_id == segmentId)).isEmpty then 1/2
      else ((sortByKey (fun r => r.timestamp)
        (df.filter (fun r => r.segment_id == segmentId))).getLastD
          default).risk_score := by
  unfold getCurrentDensity getCurrentDensityH Heap.read Heap.alloc
  by_cases h : (df.filter (fun r => r.segment_id == segmentId)).isEmpty <;>
    simp [h]

/-- C4.  A what-if request for a segment with no risk rows in the 24h
lookback fails with the 404 `NotFound` error before the service runs
(`if not risks: raise HTTPException(404)`); when history exists the
baseline density read by `_get_current_density` is the `risk_score` of a
row with the latest timestamp, and the 0.5 default is used exactly when the
frame has no row for the segment. -/
theorem c4_notfound_and_baseline (model : Option (Frame → Frame))
    (risks : List WRow) (req : WhatIfRequest) (df : Frame) (seg : String) :
    (risks.isEmpty = true →
      createWhatifScenario model risks req = .error .notFound) ∧
    ((df.filter (fun r => r.segment_id == seg)).isEmpty = true →
      getCurrentDensity df seg = 1/2) ∧
    ((df.filter (fun r => r.segment_id == seg)).isEmpty = false →
      ∃ r, r ∈ df.filter (fun r2 => r2.segment_id == seg) ∧
        (∀ r2 ∈ df.filter (fun r3 => r3.segment_id == seg),
          r2.timestamp ≤ r.timestamp) ∧
        getCurrentDensity df seg = r.risk_score) := by
  refine ⟨?_, ?_, ?_⟩
  · intro h
    unfold createWhatifScenario
    simp [h]
  · intro h
    rw [getCurrentDensity_eq, h]
    simp
  · intro h
    have hne : df.filter (fun r => r.segment_id == seg) ≠ [] := by
      intro hnil
      rw [hnil] at h
      simp at h
    obtain ⟨m, hm, hlast, hmax⟩ :=
      sortByKey_getLastD_max (fun r => r.timestamp) default
        (df.filter (fun r => r.segment_id == seg)) hne
    refine ⟨m, hm, hmax, ?_⟩
    rw [getCurrentDensity_eq, h]
    simp only [Bool.false_eq_true, if_false]
    rw [hlast]

/-- C4 witness: the empty history yields 404; a one-row history yields that
row's risk score as the baseline (the row's timestamp is maximal). -/
theorem c4_witness :
    ([] : List WRow).isEmpty = true ∧
    createWhatifScenario none [] { segment_id := "A" } = .error .notFound ∧
    getCurrentDensity [] "A" = 1/2 ∧
    (∃ r, r ∈ ([{ segment_id := "A", timestamp := 120, risk_score := 3/4 }] :
        Frame).filter (fun r2 => r2.segment_id == "A") ∧
      (∀ r2 ∈ ([{ segment_id := "A", timestamp := 120, risk_score := 3/4 }] :
          Frame).filter (fun r3 => r3.segment_id == "A"),
        r2.timestamp ≤ r.timestamp) ∧
      getCurrentDensity
        [{ segment_id := "A", timestamp := 120, risk_score := 3/4 }] "A" =
        r.risk_score) :=
  ⟨rfl,
    (c4_notfound_and_baseline none [] { segment_id := "A" } [] "A").1 rfl,
    (c4_notfound_and_baseline none [] { segment_id := "A" } [] "A").2.1 rfl,
    (c4_notfound_and_baseline none [] { segment_id := "A" }
      [{ segment_id := "A", timestamp := 120, risk_score := 3/4 }] "A").2.2
      rfl⟩

/-! ## Request validation (C5) -/

/-- C5 counterexample.  The claim says a request with non-positive
`duration_hours` or a negative lane count fails with a `ValidationError`
before any impact computation; but the pydantic schema declares no
constraint, so `lane_closed = -1, duration_hours = -3` is accepted, and the
road-work computation then runs — far enough to raise the `AttributeError`
from inside `_calculate_direct_impact`, not a validation error. -/
theorem c5_counterexample :
    validateWhatIfRequest
        { segment_id := "A", lane_closed := -1, duration_hours := -3 } =
      .ok { segment_id := "A", lane_closed := -1, duration_hours := -3 } ∧
    runScenario
        { segmentNeighbors := [("A", [])], useModel := false,
          trafficModel := none, diversionFactor := 2/5,
          laneCapacityReduction := none }
        "road_work" [] "A" (-1) (-3) none 5 none none =
      .error .attributeError := by
  constructor
  · rfl
  · have haff : findAffectedSegments [("A", [])] "A" 5 = ["A"] := by
      simp [findAffectedSegments, bfsLoop, addNeighbors, Graph.get]
    simp [runScenario, runRoadWorkScenario, resolveGraph, haff,
      calcDirectImpact, List.mapM, List.mapM.loop, Except.map, bind,
      Except.bind]

/-- C5 amended.  Well-typed scenario parameters are never rejected by the
schema (no constraints are declared: negative lane counts and non-positive
durations pass validation and enter the computation); only an unknown
scenario type is rejected, with a `ValueError` raised by
`ScenarioType(scenario_type)` before any computation. -/
theorem c5_amended_validation :
    (∀ req : WhatIfRequest, validateWhatIfRequest req = .ok req) ∧
    (∀ (svc : WhatIfService) (stype : String) (df : Frame) (segId : String)
      (lanes dur : ℤ) (st : Option String) (mh : ℕ) (ea : Option ℤ)
      (ws : Option ℚ),
      stype ≠ "road_work" → stype ≠ "pipe_burst" → stype ≠ "accident" →
      stype ≠ "event" → stype ≠ "weather" →
      runScenario svc stype df segId lanes dur st mh ea ws =
        .error .valueError) := by
  constructor
  · intro req
    rfl
  · intro svc stype df segId lanes dur st mh ea ws h1 h2 h3 h4 h5
    simp [runScenario, h1, h2, h3, h4, h5]

/-- C5 amended witness: an unknown scenario type `"flood"` is rejected with
`ValueError`. -/
theorem c5_witness :
    (("flood" : String) ≠ "road_work" ∧ ("flood" : String) ≠ "pipe_burst" ∧
      ("flood" : String) ≠ "accident" ∧ ("flood" : String) ≠ "event" ∧
      ("flood" : String) ≠ "weather") ∧
    runScenario (mkService none) "flood" [] "A" 1 6 none 5 none none =
      .error .valueError :=
  ⟨by refine ⟨?_, ?_, ?_, ?_, ?_⟩ <;> decide,
    c5_amended_validation.2 (mkService none) "flood" [] "A" 1 6 none 5 none
      none (by decide) (by decide) (by decide) (by decide) (by decide)⟩

/-! ## The model-assisted refinement raises (C6) -/

theorem segImpactWithModel_target_error (svc : WhatIfService)
    (hsvc : svc.laneCapacityReduction = none) (g : Graph) (df : Frame)
    (lanes : ℤ) (base : ℚ) (target : String) :
    segImpactWithModel svc g df target lanes base target =
      .error .attributeError := by
  unfold segImpactWithModel
  by_cases h : (df.filter (fun r => r.segment_id == target)).isEmpty
  · simp [h, calcDirectImpact, hsvc, Except.map]
  · simp [h, calcDirectImpact, hsvc, Except.map, bind, Except.bind]

/-- C6.  The spec claims `_calculate_impact_with_model` never raises to the
caller and falls back to the formulaic estimate on any error; but for the
closed segment itself (always a member of `affected_segments`) the
`except Exception` fallback calls `_calculate_direct_impact`, which reads
the never-assigned `self.lane_capacity_reduction`, so the fallback itself
raises `AttributeError` out of the loop — on any frame, graph, lane count
and base density. -/
theorem c6_model_impact_raises_at_target (model : Option (Frame → Frame))
    (g : Graph) (df : Frame) (lanes : ℤ) (base : ℚ) (target : String) :
    calcImpactWithModel (mkService model) g df [target] target lanes base =
      .error .attributeError := by
  unfold calcImpactWithModel
  simp [List.mapM, List.mapM.loop,
    segImpactWithModel_target_error (mkService model) rfl g df lanes base
      target, Except.map]

/-! ## Best-time-window characterization (C7) -/

/-- The rows of the segment at a given hour of day (statement vocabulary for
the best-window property; the groupby in `_find_best_time_window` groups
exactly these rows). -/
def hourGroup (df : Frame) (seg : String) (hr : ℕ) : Frame :=
  (df.filter (fun r => r.segment_id == seg)).filter
    (fun r => hourOf r.timestamp == hr)

/-- The `hourly_avg` series: mean `risk_score` per present hour of day, in
ascending hour order, as `groupby("hour").mean()` produces it. -/
def hourlyMeansOf (df : Frame) (seg : String) : List (ℕ × ℚ) :=
  (List.range 24).filterMap (fun hr =>
    if (hourGroup df seg hr).isEmpty then none
    else some (hr, meanQ ((hourGroup df seg hr).map (fun r => r.risk_score))))

theorem headD_mem {α : Type} {l : List α} (h : l ≠ []) (d : α) :
    l.headD d ∈ l := by
  cases l with
  | nil => simp at h
  | cons a as => simp

theorem headD_map {α β : Type} (f : α → β) (l : List α) (d : α) :
    (l.map f).headD (f d) = f (l.headD d) := by
  cases l <;> simp

theorem filter_hour_map (segData : Frame) (hr : ℕ) :
    ((segData.map (fun r => { r with hour := some (hourOf r.timestamp) })).filter
        (fun r => r.hour == some hr)) =
      (segData.filter (fun r => hourOf r.timestamp == hr)).map
        (fun r => { r with hour := some (hourOf r.timestamp) }) := by
  induction segData with
  | nil => simp
  | cons r rs ih =>
    by_cases h : hourOf r.timestamp = hr
    · simp [List.filter_cons, h, ih]
    · simp [List.filter_cons, h, ih]

theorem findBestTimeWindow_empty (df : Frame) (seg : String) (dur : ℤ)
    (h : (df.filter (fun r => r.segment_id == seg)).isEmpty = true) :
    findBestTimeWindow df seg dur = ⟨"01:00", "07:00"⟩ := by
  unfold findBestTimeWindow findBestTimeWindowH Heap.read Heap.alloc
  simp [h]

theorem findBestTimeWindow_nonempty (df : Frame) (seg : String) (dur : ℤ)
    (h : (df.filter (fun r => r.segment_id == seg)).isEmpty = false) :
    findBestTimeWindow df seg dur =
      ⟨fmtHour (((sortByKey Prod.snd (hourlyMeansOf df seg)).map
          Prod.fst).headD 0),
        fmtHour (((((sortByKey Prod.snd (hourlyMeansOf df seg)).map
          Prod.fst).headD 0 : ℤ) + dur) % 24).toNat⟩ := by
  unfold findBestTimeWindow findBestTimeWindowH Heap.read Heap.alloc Heap.write
  simp only [List.getD_eq_getElem?_getD]
  have h0 : (([df] : Heap))[0]?.getD [] = df := rfl
  simp only [h0]
  have hread : (([df] : Heap) ++
      [df.filter (fun r => r.segment_id == seg)])[1]?.getD [] =
      df.filter (fun r => r.segment_id == seg) := rfl
  simp only [List.length_singleton, hread, h, Bool.false_eq_true, if_false]
  have hset : ((([df] : Heap) ++ [df.filter (fun r => r.segment_id == seg)]).set 1
      ((df.filter (fun r => r.segment_id == seg)).map
        (fun r => { r with hour := some (hourOf r.timestamp) })))[1]?.getD [] =
      (df.filter (fun r => r.segment_id == seg)).map
        (fun r => { r with hour := some (hourOf r.timestamp) }) := rfl
  simp only [hset]
  have hgrp : ∀ hr : ℕ,
      ((df.filter (fun r => r.segment_id == seg)).map
        (fun r => { r with hour := some (hourOf r.timestamp) })).filter
          (fun r => r.hour == some hr) =
      (hourGroup df seg hr).map
        (fun r => { r with hour := some (hourOf r.timestamp) }) := by
    intro hr
    exact filter_hour_map (df.filter (fun r => r.segment_id == seg)) hr
  have havg : (List.range 24).filterMap (fun hr =>
      if (((df.filter (fun r => r.segment_id == seg)).map
          (fun r => { r with hour := some (hourOf r.timestamp) })).filter
            (fun r => r.hour == some hr)).isEmpty then none
      else some (hr, meanQ ((((df.filter (fun r => r.segment_id == seg)).map
          (fun r => { r with hour := some (hourOf r.timestamp) })).filter
            (fun r => r.hour == some hr)).map (fun r => r.risk_score)))) =
      hourlyMeansOf df seg := by
    unfold hourlyMeansOf
    apply List.filterMap_congr
    intro hr _
    rw [hgrp hr]
    cases hgl : hourGroup df seg hr with
    | nil => simp
    | cons a as =>
      simp only [List.map_cons, List.isEmpty_cons, List.map_map]
      rfl
  simp only [havg]

theorem mem_hourlyMeansOf {df : Frame} {seg : String} {hr : ℕ} {q : ℚ} :
    (hr, q) ∈ hourlyMeansOf df seg ↔
      hr < 24 ∧ (hourGroup df seg hr).isEmpty = false ∧
        q = meanQ ((hourGroup df seg hr).map (fun r => r.risk_score)) := by
  unfold hourlyMeansOf
  rw [List.mem_filterMap]
  constructor
  · rintro ⟨a, hmem, hsome⟩
    by_cases hg : (hourGroup df seg a).isEmpty
    · simp [hg] at hsome
    · simp only [hg, Bool.false_eq_true, if_false, Option.some.injEq,
        Prod.mk.injEq] at hsome
      obtain ⟨rfl, rfl⟩ := hsome
      exact ⟨List.mem_range.mp hmem, by simpa using hg, rfl⟩
  · rintro ⟨h24, hne, rfl⟩
    exact ⟨hr, List.mem_range.mpr h24, by simp [hne]⟩

theorem hourlyMeansOf_ne_nil {df : Frame} {seg : String}
    (h : df.filter (fun r => r.segment_id == seg) ≠ []) :
    hourlyMeansOf df seg ≠ [] := by
  cases hf : df.filter (fun r => r.segment_id == seg) with
  | nil => exact absurd hf h
  | cons a as =>
    have ha : a ∈ df.filter (fun r => r.segment_id == seg) := by
      rw [hf]; exact List.mem_cons_self _ _
    have hmem : a ∈ hourGroup df seg (hourOf a.timestamp) := by
      unfold hourGroup
      rw [List.mem_filter]
      exact ⟨ha, by simp⟩
    have hgne : (hourGroup df seg (hourOf a.timestamp)).isEmpty = false := by
      cases hg : hourGroup df seg (hourOf a.timestamp) with
      | nil => rw [hg] at hmem; simp at hmem
      | cons b bs => rfl
    have h24 : hourOf a.timestamp < 24 := Nat.mod_lt _ (by norm_num)
    exact List.ne_nil_of_mem (mem_hourlyMeansOf.mpr ⟨h24, hgne, rfl⟩)

theorem bestStart_spec (df : Frame) (seg : String)
    (h : (df.filter (fun r => r.segment_id == seg)).isEmpty = false) :
    ∃ hm : ℕ × ℚ, hm ∈ hourlyMeansOf df seg ∧
      (∀ x ∈ hourlyMeansOf df seg, hm.2 ≤ x.2) ∧
      ((sortByKey Prod.snd (hourlyMeansOf df seg)).map Prod.fst).headD 0 =
        hm.1 := by
  have hne : hourlyMeansOf df seg ≠ [] := by
    apply hourlyMeansOf_ne_nil
    intro hnil
    rw [hnil] at h
    simp at h
  have hsne : sortByKey Prod.snd (hourlyMeansOf df seg) ≠ [] := by
    rw [Ne, sortByKey_eq_nil_iff]
    exact hne
  refine ⟨(sortByKey Prod.snd (hourlyMeansOf df seg)).headD (0, 0), ?_, ?_, ?_⟩
  · exact (sortByKey_mem Prod.snd _ _).mp (headD_mem hsne (0, 0))
  · exact sortByKey_headD_min Prod.snd (0, 0) (hourlyMeansOf df seg)
  · exact headD_map Prod.fst (sortByKey Prod.snd (hourlyMeansOf df seg)) (0, 0)

/-- C7 amended.  With non-empty risk history for the target segment, an
event-scenario run returns the `duration_hours`-long wrap-around window
starting at an hour of day whose mean historical `risk_score` is minimal
among the hours present, with end `(start + duration_hours) % 24`; a
weather-scenario run instead returns the fixed window 00:00–23:59 (and an
accident run, like road-work and pipe-burst, aborts with the
`lane_capacity_reduction` `AttributeError` before returning a window). -/
theorem c7_amended_best_window (svc : WhatIfService) (df : Frame)
    (seg : String) (att dur : ℤ) (st : Option String) (mh : ℕ) (ws : ℚ) :
    ((df.filter (fun r => r.segment_id == seg)).isEmpty = false →
      ∃ h, h < 24 ∧ (hourGroup df seg h).isEmpty = false ∧
        (∀ h2, h2 < 24 → (hourGroup df seg h2).isEmpty = false →
          meanQ ((hourGroup df seg h).map (fun r => r.risk_score)) ≤
            meanQ ((hourGroup df seg h2).map (fun r => r.risk_score))) ∧
        (runEventScenario svc df seg att dur st mh).map
            (fun res => res.best_time_window) =
          .ok ⟨fmtHour h, fmtHour (((h : ℤ) + dur) % 24).toNat⟩) ∧
    (runWeatherScenario svc df seg ws dur st mh).map
        (fun res => res.best_time_window) = .ok ⟨"00:00", "23:59"⟩ := by
  constructor
  · intro h
    obtain ⟨hm, hmem, hmin, hhead⟩ := bestStart_spec df seg h
    obtain ⟨hmh, hmq⟩ := hm
    obtain ⟨h24, hgne, hval⟩ := mem_hourlyMeansOf.mp hmem
    refine ⟨hmh, h24, hgne, ?_, ?_⟩
    · intro h2 h224 hg2
      have hx2 : (h2, meanQ ((hourGroup df seg h2).map
          (fun r => r.risk_score))) ∈ hourlyMeansOf df seg :=
        mem_hourlyMeansOf.mpr ⟨h224, hg2, rfl⟩
      have hle := hmin _ hx2
      simp only at hle
      rw [← hval]
      exact hle
    · have hw := findBestTimeWindow_nonempty df seg dur h
      simp only [runEventScenario, Except.map]
      rw [hw, hhead]
  · simp [runWeatherScenario, Except.map]

/-- The two-row bimodal history used for the C7 counterexample and
witnesses: segment `S` at hour 1 with risk 0.9 and hour 3 with risk 0.1. -/
def dfBimodal : Frame :=
  [{ segment_id := "S", timestamp := 60, risk_score := 9/10 },
   { segment_id := "S", timestamp := 180, risk_score := 1/10 }]

/-- A one-segment service fixture (so BFS stays on a one-node graph). -/
def svcIsolated : WhatIfService :=
  { segmentNeighbors := [("S", [])]
    useModel := false
    trafficModel := none
    diversionFactor := 2/5
    laneCapacityReduction := none }

/-- C7 counterexample.  The claim quantifies over every scenario run, but a
weather run on a segment whose lowest-mean hour is 3 returns the hard-coded
window 00:00–23:59, not the claimed `duration_hours`-long window
03:00–07:00 computed from the history. -/
theorem c7_counterexample :
    (runWeatherScenario svcIsolated dfBimodal "S" (1/2) 4 none 5).map
        (fun res => res.best_time_window) = .ok ⟨"00:00", "23:59"⟩ ∧
    findBestTimeWindow dfBimodal "S" 4 = ⟨"03:00", "07:00"⟩ ∧
    (⟨"00:00", "23:59"⟩ : Window) ≠ ⟨"03:00", "07:00"⟩ := by
  refine ⟨?_, ?_, by decide⟩
  · simp [runWeatherScenario, Except.map]
  · rw [findBestTimeWindow_nonempty dfBimodal "S" 4 rfl]
    have h1 : hourlyMeansOf dfBimodal "S" =
        [(1, meanQ [9/10]), (3, meanQ [1/10])] := rfl
    have h2 : ¬ (meanQ [(9 : ℚ)/10] ≤ meanQ [(1 : ℚ)/10]) := by
      norm_num [meanQ]
    rw [h1]
    simp only [sortByKey, insertByKey, if_neg h2, List.map_cons,
      List.headD_cons]
    decide

/-- C7 witness: the amended theorem applied to the bimodal history. -/
theorem c7_witness :
    (dfBimodal.filter (fun r => r.segment_id == "S")).isEmpty = false ∧
    ((∃ h, h < 24 ∧ (hourGroup dfBimodal "S" h).isEmpty = false ∧
        (∀ h2, h2 < 24 → (hourGroup dfBimodal "S" h2).isEmpty = false →
          meanQ ((hourGroup dfBimodal "S" h).map (fun r => r.risk_score)) ≤
            meanQ ((hourGroup dfBimodal "S" h2).map (fun r => r.risk_score))) ∧
        (runEventScenario svcIsolated dfBimodal "S" 1000 4 none 2).map
            (fun res => res.best_time_window) =
          .ok ⟨fmtHour h, fmtHour (((h : ℤ) + 4) % 24).toNat⟩) ∧
      (runWeatherScenario svcIsolated dfBimodal "S" (1/2) 4 none 2).map
          (fun res => res.best_time_window) = .ok ⟨"00:00", "23:59"⟩) :=
  ⟨rfl,
    (c7_amended_best_window svcIsolated dfBimodal "S" 1000 4 none 2
      (1/2)).1 rfl,
    (c7_amended_best_window svcIsolated dfBimodal "S" 1000 4 none 2
      (1/2)).2⟩

/-! ## Determinism (C8) -/

/-- C8.  `run_scenario` is a pure function of the service state, scenario
type, segment-status data and parameters: two runs over equal inputs return
equal results — the same `affected_segments` (same segments, same
`delay_increase_pct`, same order), the same `best_time_window`, and the
same outcome even on the scenario types that currently raise. -/
theorem c8_determinism (svc : WhatIfService) (stype : String)
    (df1 df2 : Frame) (segId : String) (lanes dur : ℤ)
    (st : Option String) (mh : ℕ) (ea : Option ℤ) (ws : Option ℚ)
    (hdf : df1 = df2) :
    runScenario svc stype df1 segId lanes dur st mh ea ws =
      runScenario svc stype df2 segId lanes dur st mh ea ws := by
  subst hdf
  rfl

/-- C8 witness: a concrete weather scenario run twice over the same data. -/
theorem c8_witness :
    dfBimodal = dfBimodal ∧
    runScenario svcIsolated "weather" dfBimodal "S" 1 6 none 5 none none =
      runScenario svcIsolated "weather" dfBimodal "S" 1 6 none 5 none none :=
  ⟨rfl, c8_determinism svcIsolated "weather" dfBimodal dfBimodal "S" 1 6
    none 5 none none rfl⟩

/-! ## Forecaster clamping (C9) -/

/-- C9.  `create_features` produces `traffic_density ∈ [0, 1]` for every
input frame (clip then fillna), and `predict` produces `expected_2h ∈
[0, 1]` whatever the booster's raw outputs are — negative or above-range
raw inputs included. -/
theorem c9_forecaster_clamped (booster : List FRow → List ℚ)
    (df : List TRow) :
    (∀ f ∈ createFeatures df,
      0 ≤ f.traffic_density ∧ f.traffic_density ≤ 1) ∧
    (∀ e ∈ TrafficDensityModel.predict booster df,
      0 ≤ e.2 ∧ e.2 ≤ 1) := by
  constructor
  · intro f hf
    unfold createFeatures at hf
    rcases List.mem_map.mp hf with ⟨r, hr, rfl⟩
    simp only
    cases hg : (((sortByKey (fun r => toLex (r.signal_id, r.timestamp))
        df).filter (fun q => q.signal_id == r.signal_id)).map
          (fun q => q.vehicle_count)).max? with
    | none => simp
    | some x =>
      by_cases hx : x = 0
      · simp [hx]
      · simp only [hx, if_false]
        constructor
        · exact le_min (by norm_num) (le_max_left 0 _)
        · exact min_le_left 1 _
  · intro e he
    unfold TrafficDensityModel.predict at he
    obtain ⟨f, p⟩ := e
    obtain ⟨-, hp⟩ := List.of_mem_zip he
    rcases List.mem_map.mp hp with ⟨q, hq, rfl⟩
    exact ⟨le_min (by norm_num) (le_max_left 0 q), min_le_left 1 _⟩

/-! ## Frame preservation (C10) -/

theorem c10_helper_window (heap : Heap) (r : ℕ) (segId : String) (dur : ℤ)
    (hr : r < heap.length) :
    ((findBestTimeWindowH heap r segId dur).2).read r = heap.read r := by
  unfold findBestTimeWindowH
  by_cases h : ((heap.alloc ((heap.read r).filter
      (fun row => row.segment_id == segId))).2.read
        (heap.alloc ((heap.read r).filter
          (fun row => row.segment_id == segId))).1).isEmpty
  · simp only [h, if_true]
    exact Heap.read_alloc heap _ hr
  · simp only [h, Bool.false_eq_true, if_false]
    rw [Heap.read_write_ne]
    · exact Heap.read_alloc heap _ hr
    · simp only [Heap.alloc]
      omega

theorem c10_helper_density (heap : Heap) (r : ℕ) (segId : String)
    (hr : r < heap.length) :
    ((getCurrentDensityH heap r segId).2).read r = heap.read r := by
  unfold getCurrentDensityH
  by_cases h : ((heap.alloc ((heap.read r).filter
      (fun row => row.segment_id == segId))).2.read
        (heap.alloc ((heap.read r).filter
          (fun row => row.segment_id == segId))).1).isEmpty
  · simp only [h, if_true]
    exact Heap.read_alloc heap _ hr
  · simp only [h, Bool.false_eq_true, if_false]
    rw [Heap.read_alloc]
    · exact Heap.read_alloc heap _ hr
    · simp only [Heap.alloc, List.length_append, List.length_cons,
        List.length_nil]
      omega

theorem c10_helper_features (heap : Heap) (r : ℕ) (cur scen : ℚ)
    (hr : r < heap.length) :
    ((prepareModelFeaturesH heap r cur scen).2).read r = heap.read r := by
  unfold prepareModelFeaturesH
  by_cases h : (heap.read r).isEmpty = true ∨ (heap.read r).length < 2
  · simp only [h, if_true]
  · simp only [h, if_false]
    rw [Heap.read_write_ne, Heap.read_write_ne, Heap.read_write_ne,
      Heap.read_alloc, Heap.read_write_ne, Heap.read_write_ne,
      Heap.read_write_ne, Heap.read_alloc, Heap.read_write_ne,
      Heap.read_alloc heap _ hr]
    all_goals
      simp only [Heap.alloc, Heap.write, List.length_append,
        List.length_cons, List.length_nil, List.length_set]
    all_goals omega

/-- C10.  The hour-of-day aggregation (`_find_best_time_window`), the
baseline-density lookup (`_get_current_density`) and the model feature
preparation (`_prepare_model_features`) all leave the caller's frame
untouched: filtering/sorting allocate fresh frames and every in-place
column write targets a `.copy()`, so reading the input reference after the
call returns exactly the frame that went in. -/
theorem c10_no_input_mutation (heap : Heap) (r : ℕ) (segId : String)
    (dur : ℤ) (cur scen : ℚ) (hr : r < heap.length) :
    ((findBestTimeWindowH heap r segId dur).2).read r = heap.read r ∧
    ((getCurrentDensityH heap r segId).2).read r = heap.read r ∧
    ((prepareModelFeaturesH heap r cur scen).2).read r = heap.read r :=
  ⟨c10_helper_window heap r segId dur hr,
    c10_helper_density heap r segId hr,
    c10_helper_features heap r cur scen hr⟩

/-- C10 witness: a two-frame heap; the caller's frame is unchanged by all
three operations. -/
theorem c10_witness :
    (0 : ℕ) < ([dfBimodal] : Heap).length ∧
    Heap.read (findBestTimeWindowH [dfBimodal] 0 "S" 6).2 0 =
      Heap.read [dfBimodal] 0 ∧
    Heap.read (getCurrentDensityH [dfBimodal] 0 "S").2 0 =
      Heap.read [dfBimodal] 0 ∧
    Heap.read (prepareModelFeaturesH [dfBimodal] 0 (1/2) (3/4)).2 0 =
      Heap.read [dfBimodal] 0 :=
  ⟨by norm_num,
    (c10_no_input_mutation [dfBimodal] 0 "S" 6 (1/2) (3/4)
      (by norm_num)).1,
    (c10_no_input_mutation [dfBimodal] 0 "S" 6 (1/2) (3/4)
      (by norm_num)).2.1,
    (c10_no_input_mutation [dfBimodal] 0 "S" 6 (1/2) (3/4)
      (by norm_num)).2.2⟩

end BursaMind
